import Mathlib

/-!
Shallow embedding of the txcrimemap geospatial aggregation pipeline
(src/modules/helper_functions.rs) and proofs about its claims.

The embedding models:
- DynamoDB attribute values and items (HashMap String AttributeValue in Rust);
- the paginated per-county query loop and the fan-out `query_dynamo`;
- the `geocode` handler pipeline: target-county extraction from geocoding
  address components, county-set construction from the neighbor map,
  per-record field extraction, WKT-to-GeoJSON filtering and response assembly;
- the `wkt_to_geojson` helper, with the external wkt/geo/geojson/serde library
  calls abstracted as function parameters.

External collaborators (the Dynamo store, the geocoding provider, the S3
neighbor map) are modelled as explicit inputs. Panics from `.unwrap()` are
modelled as `none`; HTTP error statuses as an explicit `StatusCode` type.
-/

deriving instance DecidableEq for Except

/-- Model of aws_sdk_dynamodb AttributeValue: only the `S` (string) and `N`
(number-as-string) variants are used by the code; everything else is `other`. -/
inductive AttributeValue
  | S (s : String)
  | N (n : String)
  | other
deriving DecidableEq, Repr

/-- Model of `AttributeValue::as_s().ok()`: the string payload, if any. -/
def AttributeValue.as_s : AttributeValue → Option String
  | .S s => some s
  | _ => none

/-- Model of `AttributeValue::as_n().ok()`: the number string payload, if any. -/
def AttributeValue.as_n : AttributeValue → Option String
  | .N n => some n
  | _ => none

/-- A Dynamo item, `HashMap<String, AttributeValue>` in Rust, modelled as an
association list (only `get` is ever used on it). -/
abbrev Item := List (String × AttributeValue)

/-- Model of `HashMap::get` on an item. -/
def itemGet (item : Item) (key : String) : Option AttributeValue :=
  (item.find? (fun p => p.1 == key)).map (fun p => p.2)

/-- One store response to one query request, as observed by the client loop in
`query_dynamo`: either an SDK error (the `request.send().await?` failure path)
or a page carrying optional items and an optional `last_evaluated_key`
continuation token. -/
inductive StoreResponse
  | err (msg : String)
  | page (items : Option (List Item)) (last_evaluated_key : Option Item)
deriving DecidableEq, Repr

/-- The per-county pagination loop body of `query_dynamo`
(helper_functions.rs lines 70-106). The store is modelled by the sequence of
responses it returns to successive requests. Returns the task result together
with the list of `exclusive_start_key` values sent, one entry per request
issued (the first request carries no key; each later request carries the
previous response's `last_evaluated_key`). The loop stops at the first
response with no continuation token, or returns the error of a failed send.
An exhausted response list (a store that stopped answering, which cannot
happen for a real store) yields the accumulated results with no request
recorded. -/
def queryCountyAux (responses : List StoreResponse) (results : List Item)
    (lek : Option Item) : Except String (List Item) × List (Option Item) :=
  match responses with
  | [] => (Except.ok results, [])
  | StoreResponse.err e :: _ => (Except.error e, [lek])
  | StoreResponse.page items next :: rest =>
    let results := results ++ items.getD []
    match next with
    | none => (Except.ok results, [lek])
    | some k =>
      let r := queryCountyAux rest results (some k)
      (r.1, lek :: r.2)

/-- The per-county task spawned by `query_dynamo`: run the pagination loop
from an empty accumulator and no start key. (The Rust `if results.is_empty()
return Ok(results)` branch returns the same value as the fall-through and is
a no-op.) -/
def queryCounty (responses : List StoreResponse) : Except String (List Item) :=
  (queryCountyAux responses [] none).1

/-- One sub-query of the fan-out: `query_dynamo` formats the key as
`format!("\x7b\x7d County", county)` and queries the store for it. -/
def subQuery (store : String → List StoreResponse) (county : String) :
    Except String (List Item) :=
  queryCounty (store (county ++ " County"))

/-- The aggregation loop over `join_all(tasks)` (lines 111-118): extend
`all_results` with each task's items in task order, propagating the first
error via `?`. -/
def collectTasks : List (Except String (List Item)) → Except String (List Item)
  | [] => Except.ok []
  | t :: ts =>
    match t with
    | Except.error e => Except.error e
    | Except.ok items =>
      match collectTasks ts with
      | Except.error e => Except.error e
      | Except.ok rest => Except.ok (items ++ rest)

/-- Model of `query_dynamo` (lines 53-119): one sub-query per county, results
aggregated in input order (futures join_all preserves the order in which the
tasks were pushed, regardless of completion order). -/
def query_dynamo (store : String → List StoreResponse) (counties : List String) :
    Except String (List Item) :=
  collectTasks (counties.map (subQuery store))

/-- Whether a task result is a success. -/
def isQueryOk : Except String (List Item) → Bool
  | Except.ok _ => true
  | Except.error _ => false

/-- The items of a successful task result (empty on error; used only under
all-success hypotheses). -/
def taskItems : Except String (List Item) → List Item
  | Except.ok items => items
  | Except.error _ => []

/-- The records a county's sub-query yields on success (empty on error; used
only under all-success hypotheses). -/
def countyRecords (store : String → List StoreResponse) (county : String) :
    List Item :=
  taskItems (subQuery store county)

/-- A store interaction of k pages: the first k-1 pages carry continuation
tokens, the last page carries none. -/
def mkPagedResponses (ps : List (List Item × Item)) (last : List Item) :
    List StoreResponse :=
  ps.map (fun p => StoreResponse.page (some p.1) (some p.2)) ++
    [StoreResponse.page (some last) none]

/-- If `pat` is an initial segment of `s`, return the remainder of `s` after
it; otherwise nothing. Used to model substring matching. -/
def matchAt : List Char → List Char → Option (List Char)
  | [], rest => some rest
  | _ :: _, [] => none
  | p :: ps, c :: cs => if p = c then matchAt ps cs else none

/-- Fueled worker for `rustReplace`: scan left to right, replacing each
non-overlapping occurrence of `pat`. -/
def replaceAllFuel (pat repl : List Char) : Nat → List Char → List Char
  | 0, s => s
  | _ + 1, [] => []
  | fuel + 1, c :: cs =>
    match matchAt pat (c :: cs) with
    | some rest => repl ++ replaceAllFuel pat repl fuel rest
    | none => c :: replaceAllFuel pat repl fuel cs

/-- Model of Rust `str::replace(pat, repl)`: replace every non-overlapping
occurrence of `pat` in `s`, scanning left to right. The fuel `s.length`
suffices because `pat` (here always the non-empty literal used by the code)
consumes at least one character per replacement. -/
def rustReplace (s pat repl : String) : String :=
  ⟨replaceAllFuel pat.data repl.data s.data.length s.data⟩

/-- Modelled from the spec: strip only a trailing occurrence of the suffix
(the spec reads the derivation as removing the trailing decoration such as
a final " County"); used to compare against what the code computes. -/
def stripSuffixSpec (s sfx : String) : String :=
  match matchAt sfx.data.reverse s.data.reverse with
  | some restRev => ⟨restRev.reverse⟩
  | none => s

/-- Model of google_maps PlaceType: the one tag the code tests for, plus
everything else. -/
inductive PlaceType
  | administrativeAreaLevel2
  | otherTag (tag : String)
deriving DecidableEq, Repr

/-- One address component of a geocoding result: a long-form name and its
classification tags. -/
structure AddressComponent where
  long_name : String
  types : List PlaceType
deriving DecidableEq, Repr

/-- The center coordinate of a geocoding result (lat/lng modelled as
rationals; the code converts Decimal to f64, which the claims never touch
numerically). -/
structure Location where
  lat : Rat
  lng : Rat
deriving DecidableEq, Repr

/-- One geocoding result: its center location and its address components. -/
structure GeocodeResultEntry where
  location : Location
  address_components : List AddressComponent
deriving DecidableEq, Repr

/-- The target-county scan of `geocode` (lines 166-177): walk the components
in order; the first one whose tag list contains administrative-area-level-2
supplies the county name via `long_name.replace(" County", "")`. -/
def findTargetCounty (comps : List AddressComponent) : Option String :=
  match comps with
  | [] => none
  | comp :: rest =>
    if comp.types.contains PlaceType.administrativeAreaLevel2 then
      some (rustReplace comp.long_name " County" "")
    else findTargetCounty rest

/-- The county-set construction of `geocode` (lines 195-198):
`vec![target_county]`, extended by the neighbor map entry when present. -/
def buildCountySet (neighbors_map : String → Option (List String))
    (target_county : String) : List String :=
  target_county :: ((neighbors_map target_county).getD [])

/-- The HTTP statuses the handler can produce. -/
inductive StatusCode
  | OK
  | NOT_FOUND
  | INTERNAL_SERVER_ERROR
deriving DecidableEq, Repr

/-- One entry of the response `areas` array (lines 256-261), generic in the
GeoJSON value type `J`. -/
structure AreaEntry (J : Type) where
  geo_id : String
  county : String
  crime_percentile : Rat
  geometry : J
deriving DecidableEq, Repr

/-- The response center point. -/
structure Center where
  lat : Rat
  lon : Rat
deriving DecidableEq, Repr

/-- The aggregated response body. -/
structure GeocodeResponse (J : Type) where
  center : Center
  areas : List (AreaEntry J)
deriving DecidableEq, Repr

/-- The WeightedCrimePercentile extraction (lines 238-242):
`get -> as_n -> parse::<f64> -> unwrap_or(0.0)`; the numeric parse of the
external library is the parameter `parseNum`. -/
def extractPercentile (parseNum : String → Option Rat) (item : Item) : Rat :=
  ((((itemGet item "WeightedCrimePercentile").bind AttributeValue.as_n).bind
    parseNum).getD 0)

/-- The per-item loop of `geocode` (lines 219-263): unconditional unwrap of
the GEOID, County and Geometry string fields (a missing one panics the task,
modelled as `none`), percentile defaulted to 0.0, and the item kept only when
`w2g` (the WKT-to-GeoJSON conversion) succeeds on its geometry string. -/
def buildAreas (J : Type) (parseNum : String → Option Rat)
    (w2g : String → Option J) : List Item → Option (List (AreaEntry J))
  | [] => some []
  | item :: rest =>
    match (itemGet item "GEOID").bind AttributeValue.as_s with
    | none => none
    | some geo_id =>
      match (itemGet item "County").bind AttributeValue.as_s with
      | none => none
      | some county_name =>
        match (itemGet item "Geometry").bind AttributeValue.as_s with
        | none => none
        | some wkt_geometry =>
          match buildAreas J parseNum w2g rest with
          | none => none
          | some areas =>
            match w2g wkt_geometry with
            | some geojson =>
              some (⟨geo_id, county_name, extractPercentile parseNum item,
                geojson⟩ :: areas)
            | none => some areas

/-- Model of `wkt_to_geojson` (lines 286-295). The external library calls are
parameters: `parseWkt` is `wkt_str.parse().ok()`, `wktItem` is
`wkt_parsed.into()` (an optional single geometry item), `tryIntoGeo` is
`item.try_into().ok()`, `geoJsonFrom` is the total `GeoJson::from`, and
`toValue` is `serde_json::to_value(..).ok()`. -/
def wkt_to_geojson (W I G GJ J : Type) (parseWkt : String → Option W)
    (wktItem : W → Option I) (tryIntoGeo : I → Option G)
    (geoJsonFrom : G → GJ) (toValue : GJ → Option J)
    (wkt_str : String) : Option J :=
  match parseWkt wkt_str with
  | none => none
  | some wkt_parsed =>
    match wktItem wkt_parsed with
    | some item =>
      match tryIntoGeo item with
      | none => none
      | some geo_geom => toValue (geoJsonFrom geo_geom)
    | none => none

/-- Model of the `geocode` handler (lines 144-283). Collaborator outcomes are
inputs: `geocode_res` is the provider call result, `neighbor_map_res` the S3
neighbor-map load, `store` the Dynamo store behaviour. The result is `none`
when the handler task panics (an unwrap on a missing record field), otherwise
`some` of the HTTP outcome. -/
def geocode (W I G GJ J : Type)
    (geocode_res : Except String (List GeocodeResultEntry))
    (neighbor_map_res : Except String (String → Option (List String)))
    (store : String → List StoreResponse)
    (parseNum : String → Option Rat)
    (parseWkt : String → Option W) (wktItem : W → Option I)
    (tryIntoGeo : I → Option G) (geoJsonFrom : G → GJ)
    (toValue : GJ → Option J) :
    Option (Except StatusCode (GeocodeResponse J)) :=
  match geocode_res with
  | Except.error _ => some (Except.error StatusCode.INTERNAL_SERVER_ERROR)
  | Except.ok results =>
    match results with
    | [] => some (Except.error StatusCode.NOT_FOUND)
    | first :: _ =>
      let center_lat := first.location.lat
      let center_lon := first.location.lng
      match findTargetCounty first.address_components with
      | none => some (Except.error StatusCode.NOT_FOUND)
      | some target_county =>
        match neighbor_map_res with
        | Except.error _ => some (Except.error StatusCode.INTERNAL_SERVER_ERROR)
        | Except.ok neighbors_map =>
          let counties_to_query := buildCountySet neighbors_map target_county
          match query_dynamo store counties_to_query with
          | Except.error _ =>
            some (Except.error StatusCode.INTERNAL_SERVER_ERROR)
          | Except.ok items =>
            match buildAreas J parseNum
                (wkt_to_geojson W I G GJ J parseWkt wktItem tryIntoGeo
                  geoJsonFrom toValue) items with
            | none => none
            | some areas =>
              if areas.isEmpty then some (Except.error StatusCode.NOT_FOUND)
              else
                some (Except.ok ⟨⟨center_lat, center_lon⟩, areas⟩)

theorem mkPagedResponses_cons (p : List Item × Item)
    (ps : List (List Item × Item)) (last : List Item) :
    mkPagedResponses (p :: ps) last =
      StoreResponse.page (some p.1) (some p.2) :: mkPagedResponses ps last :=
  rfl

theorem queryCountyAux_paged (ps : List (List Item × Item)) (last : List Item)
    (extra : List StoreResponse) (acc : List Item) (lek : Option Item) :
    queryCountyAux (mkPagedResponses ps last ++ extra) acc lek =
      (Except.ok (acc ++ ((ps.map Prod.fst).flatten ++ last)),
       lek :: ps.map (fun p => some p.2)) := by
  induction ps generalizing acc lek with
  | nil => simp [mkPagedResponses, queryCountyAux]
  | cons p ps ih =>
    rw [mkPagedResponses_cons, List.cons_append]
    simp only [queryCountyAux, Option.getD_some]
    rw [ih]
    simp [List.append_assoc]

/-- C2: the per-county loop issues the first request with no start key, then
re-issues carrying each previous response's continuation token, stops at the
first token-free response (later store behaviour `extra` is never consulted),
returns the concatenation of all pages' items in page order, and a store
returning k pages (here `ps.length + 1`) receives exactly k requests. -/
theorem queryCounty_pagination (ps : List (List Item × Item)) (last : List Item)
    (extra : List StoreResponse) :
    queryCountyAux (mkPagedResponses ps last ++ extra) [] none =
      (Except.ok ((ps.map Prod.fst).flatten ++ last),
       none :: ps.map (fun p => some p.2))
    ∧ (none :: ps.map (fun p => some p.2)).length =
        (mkPagedResponses ps last).length := by
  constructor
  · simpa using queryCountyAux_paged ps last extra [] none
  · simp [mkPagedResponses]

theorem collectTasks_ok_all :
    ∀ (ts : List (Except String (List Item))) (items : List Item),
      collectTasks ts = Except.ok items → ∀ t ∈ ts, isQueryOk t = true := by
  intro ts
  induction ts with
  | nil => intro items _ t ht; cases ht
  | cons t ts ih =>
    intro items h t' ht'
    cases t with
    | error e => simp [collectTasks] at h
    | ok l =>
      rcases List.mem_cons.mp ht' with rfl | hmem
      · rfl
      · cases hts : collectTasks ts with
        | error e => rw [collectTasks, hts] at h; cases h
        | ok rest => exact ih rest hts t' hmem

theorem collectTasks_error_at (pre : List (Except String (List Item)))
    (e : String) (post : List (Except String (List Item)))
    (hpre : ∀ t ∈ pre, isQueryOk t = true) :
    collectTasks (pre ++ Except.error e :: post) = Except.error e := by
  induction pre with
  | nil => simp [collectTasks]
  | cons t pre ih =>
    have ht := hpre t (List.mem_cons_self t pre)
    cases t with
    | error e2 => simp [isQueryOk] at ht
    | ok l =>
      have hrest := ih (fun t' ht' => hpre t' (List.mem_cons_of_mem _ ht'))
      rw [List.cons_append, collectTasks, hrest]

/-- C1: `query_dynamo` issues exactly one sub-query per county; it returns
a success only when every sub-query succeeded; and when a sub-query fails
(the first failing one in input order), the whole call returns exactly that
sub-query's error, so no partial result set is returned. -/
theorem query_dynamo_fail_fast (store : String → List StoreResponse) :
    (∀ counties : List String,
      (counties.map (subQuery store)).length = counties.length)
    ∧ (∀ counties items, query_dynamo store counties = Except.ok items →
        ∀ c ∈ counties, isQueryOk (subQuery store c) = true)
    ∧ (∀ pre c post e,
        (∀ c' ∈ pre, isQueryOk (subQuery store c') = true) →
        subQuery store c = Except.error e →
        query_dynamo store (pre ++ c :: post) = Except.error e) := by
  refine ⟨fun counties => by simp, ?_, ?_⟩
  · intro counties items h c hc
    exact collectTasks_ok_all _ items h _ (List.mem_map_of_mem _ hc)
  · intro pre c post e hpre hc
    unfold query_dynamo
    rw [List.map_append, List.map_cons, hc]
    refine collectTasks_error_at _ e _ ?_
    intro t ht
    rcases List.mem_map.mp ht with ⟨c', hc', rfl⟩
    exact hpre c' hc'

theorem query_dynamo_fail_fast_witness :
    query_dynamo
      (fun n => if n = "Bexar County" then [StoreResponse.err "throttled"]
        else [StoreResponse.page (some []) none])
      (["Travis"] ++ "Bexar" :: ["Hays"]) = Except.error "throttled" :=
  (query_dynamo_fail_fast
      (fun n => if n = "Bexar County" then [StoreResponse.err "throttled"]
        else [StoreResponse.page (some []) none])).2.2
    ["Travis"] "Bexar" ["Hays"] "throttled" (by decide) (by decide)

theorem collectTasks_all_ok (ts : List (Except String (List Item)))
    (h : ∀ t ∈ ts, isQueryOk t = true) :
    collectTasks ts = Except.ok ((ts.map taskItems).flatten) := by
  induction ts with
  | nil => simp [collectTasks]
  | cons t ts ih =>
    have ht := h t (List.mem_cons_self t ts)
    cases t with
    | error e => simp [isQueryOk] at ht
    | ok l =>
      have hrest := ih (fun t' ht' => h t' (List.mem_cons_of_mem _ ht'))
      rw [collectTasks, hrest]
      simp [taskItems]

/-- C10: when every sub-query succeeds, the aggregate result of
`query_dynamo` is the concatenation of the per-county record lists in input
order: all records of the i-th county precede all records of the (i+1)-th
county, independently of completion order (join_all preserves task order). -/
theorem query_dynamo_input_order (store : String → List StoreResponse)
    (counties : List String)
    (h : ∀ c ∈ counties, isQueryOk (subQuery store c) = true) :
    query_dynamo store counties =
      Except.ok ((counties.map (countyRecords store)).flatten) := by
  unfold query_dynamo
  rw [collectTasks_all_ok]
  · congr 1
    rw [List.map_map]
    rfl
  · intro t ht
    rcases List.mem_map.mp ht with ⟨c, hc, rfl⟩
    exact h c hc

theorem query_dynamo_input_order_witness :
    query_dynamo
      (fun n => if n = "Travis County"
        then [StoreResponse.page (some [[("GEOID", AttributeValue.S "1")]]) none]
        else [StoreResponse.page (some [[("GEOID", AttributeValue.S "2")]]) none])
      ["Travis", "Hays"] =
      Except.ok ((["Travis", "Hays"].map (countyRecords
        (fun n => if n = "Travis County"
          then [StoreResponse.page (some [[("GEOID", AttributeValue.S "1")]]) none]
          else [StoreResponse.page (some [[("GEOID", AttributeValue.S "2")]]) none]))).flatten) :=
  query_dynamo_input_order
    (fun n => if n = "Travis County"
      then [StoreResponse.page (some [[("GEOID", AttributeValue.S "1")]]) none]
      else [StoreResponse.page (some [[("GEOID", AttributeValue.S "2")]]) none])
    ["Travis", "Hays"] (by decide)

/-- C6: the county set is the target county first; a missing neighbor-map
entry is not an error and yields exactly the target county; a present entry
appends exactly the neighbor list; the target county is always a member. -/
theorem buildCountySet_spec (neighbors_map : String → Option (List String))
    (target : String) :
    target ∈ buildCountySet neighbors_map target
    ∧ (buildCountySet neighbors_map target).head? = some target
    ∧ (neighbors_map target = none →
        buildCountySet neighbors_map target = [target])
    ∧ (∀ ns, neighbors_map target = some ns →
        buildCountySet neighbors_map target = target :: ns) := by
  refine ⟨List.mem_cons_self target _, rfl, ?_, ?_⟩
  · intro h
    simp [buildCountySet, h]
  · intro ns h
    simp [buildCountySet, h]

theorem buildCountySet_spec_witness :
    "Loving" ∈ buildCountySet (fun _ => none) "Loving"
    ∧ buildCountySet (fun _ => none) "Loving" = ["Loving"]
    ∧ buildCountySet (fun n => if n = "Travis" then some ["Williamson", "Hays"]
        else none) "Travis" = ["Travis", "Williamson", "Hays"] :=
  ⟨(buildCountySet_spec (fun _ => none) "Loving").1,
   (buildCountySet_spec (fun _ => none) "Loving").2.2.1 rfl,
   (buildCountySet_spec (fun n => if n = "Travis" then
       some ["Williamson", "Hays"] else none) "Travis").2.2.2
     ["Williamson", "Hays"] (by decide)⟩

theorem findTargetCounty_eq_find (comps : List AddressComponent) :
    findTargetCounty comps =
      (comps.find? (fun c =>
        c.types.contains PlaceType.administrativeAreaLevel2)).map
        (fun c => rustReplace c.long_name " County" "") := by
  induction comps with
  | nil => simp [findTargetCounty]
  | cons c cs ih =>
    cases hc : c.types.contains PlaceType.administrativeAreaLevel2 with
    | true => simp only [findTargetCounty, List.find?, hc, if_true,
        Option.map_some']
    | false => simp only [findTargetCounty, List.find?, hc, ih,
        Bool.false_eq_true, if_false]

/-- C3 counterexample: on a long name where the substring " County" also
occurs non-trailing, the code (Rust replace-all) yields a different county
identifier than stripping only the trailing " County" suffix, so the claim
as stated (trailing-suffix stripping) is false of the code. -/
theorem county_strip_counterexample :
    findTargetCounty
      [⟨"Washington County Annex County", [PlaceType.administrativeAreaLevel2]⟩]
      = some "Washington Annex"
    ∧ stripSuffixSpec "Washington County Annex County" " County"
      = "Washington County Annex"
    ∧ ("Washington Annex" : String) ≠ "Washington County Annex" := by
  refine ⟨by decide, by decide, by decide⟩

/-- C3 (amended): the scan selects the first address component (in component
order) tagged administrative-area-level-2 and derives the county identifier
by removing every occurrence of the substring " County" from its long name
(not only a trailing occurrence); if no component carries the tag the scan
yields nothing and the pipeline fails with not-found. -/
theorem findTargetCounty_spec (comps : List AddressComponent) :
    findTargetCounty comps =
      (comps.find? (fun c =>
        c.types.contains PlaceType.administrativeAreaLevel2)).map
        (fun c => rustReplace c.long_name " County" "")
    ∧ ((∀ c ∈ comps,
          c.types.contains PlaceType.administrativeAreaLevel2 = false) →
        findTargetCounty comps = none)
    ∧ (∀ (W I G GJ J : Type) (loc : Location)
        (rest : List GeocodeResultEntry)
        (nmres : Except String (String → Option (List String)))
        (store : String → List StoreResponse)
        (pn : String → Option Rat) (pw : String → Option W)
        (wi : W → Option I) (tg : I → Option G) (gf : G → GJ)
        (tv : GJ → Option J),
        findTargetCounty comps = none →
        geocode W I G GJ J (Except.ok (⟨loc, comps⟩ :: rest)) nmres store
          pn pw wi tg gf tv = some (Except.error StatusCode.NOT_FOUND)) := by
  refine ⟨findTargetCounty_eq_find comps, ?_, ?_⟩
  · intro h
    rw [findTargetCounty_eq_find comps]
    have hnone : comps.find? (fun c =>
        c.types.contains PlaceType.administrativeAreaLevel2) = none := by
      rw [List.find?_eq_none]
      intro c hc
      simpa using h c hc
    rw [hnone]
    rfl
  · intro W I G GJ J loc rest nmres store pn pw wi tg gf tv h
    simp only [geocode]
    rw [h]

theorem findTargetCounty_spec_witness :
    findTargetCounty [⟨"Austin", [PlaceType.otherTag "locality"]⟩] = none
    ∧ geocode Unit Unit Unit Unit Unit
        (Except.ok [⟨⟨0, 0⟩, [⟨"Austin", [PlaceType.otherTag "locality"]⟩]⟩])
        (Except.error "nm") (fun _ => []) (fun _ => none) (fun _ => none)
        (fun _ => none) (fun _ => none) (fun _ => ()) (fun _ => none)
      = some (Except.error StatusCode.NOT_FOUND) :=
  ⟨(findTargetCounty_spec [⟨"Austin", [PlaceType.otherTag "locality"]⟩]).2.1
      (by decide),
   (findTargetCounty_spec [⟨"Austin", [PlaceType.otherTag "locality"]⟩]).2.2
      Unit Unit Unit Unit Unit ⟨0, 0⟩ [] (Except.error "nm") (fun _ => [])
      (fun _ => none) (fun _ => none) (fun _ => none) (fun _ => none)
      (fun _ => ()) (fun _ => none) (by decide)⟩

theorem buildAreas_mem_transcoded (J : Type) (parseNum : String → Option Rat)
    (w2g : String → Option J) :
    ∀ (items : List Item) (areas : List (AreaEntry J)),
      buildAreas J parseNum w2g items = some areas →
      ∀ a ∈ areas, ∃ item ∈ items, ∃ wkt,
        (itemGet item "Geometry").bind AttributeValue.as_s = some wkt ∧
        w2g wkt = some a.geometry := by
  intro items
  induction items with
  | nil =>
    intro areas h a ha
    simp only [buildAreas, Option.some.injEq] at h
    subst h
    cases ha
  | cons item rest ih =>
    intro areas h a ha
    simp only [buildAreas] at h
    split at h
    · cases h
    · split at h
      · cases h
      · split at h
        · cases h
        · rename_i wkt hwkt
          split at h
          · cases h
          · split at h
            · rename_i xr rest_areas hrest xo g hg
              cases h
              rcases List.mem_cons.mp ha with h1 | hmem
              · subst h1
                exact ⟨item, List.mem_cons_self item rest, wkt, hwkt, hg⟩
              · rcases ih _ hrest a hmem with ⟨it, hit, w, hw1, hw2⟩
                exact ⟨it, List.mem_cons_of_mem _ hit, w, hw1, hw2⟩
            · rename_i xr rest_areas hrest xo hg
              cases h
              rcases ih _ hrest a ha with ⟨it, hit, w, hw1, hw2⟩
              exact ⟨it, List.mem_cons_of_mem _ hit, w, hw1, hw2⟩

/-- C4: a record whose geometry string fails to transcode is silently dropped
(the assembly of the remaining records is unchanged and no error is raised);
a record whose geometry transcodes is kept as the entry
(geo_id, county, percentile, geometry); and every entry of an assembled area
list stems from an item whose geometry string transcoded successfully to that
entry's geometry. -/
theorem areas_geometry_filter (J : Type) (parseNum : String → Option Rat)
    (w2g : String → Option J) :
    (∀ (item : Item) (rest : List Item) (geo_id county wkt : String),
      (itemGet item "GEOID").bind AttributeValue.as_s = some geo_id →
      (itemGet item "County").bind AttributeValue.as_s = some county →
      (itemGet item "Geometry").bind AttributeValue.as_s = some wkt →
      w2g wkt = none →
      buildAreas J parseNum w2g (item :: rest) = buildAreas J parseNum w2g rest)
    ∧ (∀ (item : Item) (rest : List Item) (geo_id county wkt : String)
        (g : J),
      (itemGet item "GEOID").bind AttributeValue.as_s = some geo_id →
      (itemGet item "County").bind AttributeValue.as_s = some county →
      (itemGet item "Geometry").bind AttributeValue.as_s = some wkt →
      w2g wkt = some g →
      buildAreas J parseNum w2g (item :: rest) =
        (buildAreas J parseNum w2g rest).map
          (fun areas =>
            ⟨geo_id, county, extractPercentile parseNum item, g⟩ :: areas))
    ∧ (∀ (items : List Item) (areas : List (AreaEntry J)),
      buildAreas J parseNum w2g items = some areas →
      ∀ a ∈ areas, ∃ item ∈ items, ∃ wkt,
        (itemGet item "Geometry").bind AttributeValue.as_s = some wkt ∧
        w2g wkt = some a.geometry) := by
  refine ⟨?_, ?_, buildAreas_mem_transcoded J parseNum w2g⟩
  · intro item rest geo_id county wkt h1 h2 h3 h4
    simp only [buildAreas, h1, h2, h3, h4]
    cases buildAreas J parseNum w2g rest <;> rfl
  · intro item rest geo_id county wkt g h1 h2 h3 h4
    simp only [buildAreas, h1, h2, h3, h4]
    cases buildAreas J parseNum w2g rest <;> rfl

theorem areas_geometry_filter_witness :
    buildAreas Unit (fun _ => none)
      (fun s => if s = "BADWKT" then none else some ())
      [[("GEOID", AttributeValue.S "48001"),
        ("County", AttributeValue.S "Anderson County"),
        ("Geometry", AttributeValue.S "BADWKT")]] =
      buildAreas Unit (fun _ => none)
        (fun s => if s = "BADWKT" then none else some ()) []
    ∧ buildAreas Unit (fun _ => none)
      (fun s => if s = "BADWKT" then none else some ())
      [[("GEOID", AttributeValue.S "48002"),
        ("County", AttributeValue.S "Andrews County"),
        ("Geometry", AttributeValue.S "POINT(1 2)")]] =
      (buildAreas Unit (fun _ => none)
        (fun s => if s = "BADWKT" then none else some ()) []).map
        (fun areas => ⟨"48002", "Andrews County",
          extractPercentile (fun _ => none)
            [("GEOID", AttributeValue.S "48002"),
             ("County", AttributeValue.S "Andrews County"),
             ("Geometry", AttributeValue.S "POINT(1 2)")], ()⟩ :: areas) :=
  ⟨(areas_geometry_filter Unit (fun _ => none)
      (fun s => if s = "BADWKT" then none else some ())).1
    [("GEOID", AttributeValue.S "48001"),
     ("County", AttributeValue.S "Anderson County"),
     ("Geometry", AttributeValue.S "BADWKT")] []
    "48001" "Anderson County" "BADWKT" (by decide) (by decide) (by decide)
    (by decide),
   (areas_geometry_filter Unit (fun _ => none)
      (fun s => if s = "BADWKT" then none else some ())).2.1
    [("GEOID", AttributeValue.S "48002"),
     ("County", AttributeValue.S "Andrews County"),
     ("Geometry", AttributeValue.S "POINT(1 2)")] []
    "48002" "Andrews County" "POINT(1 2)" () (by decide) (by decide) (by decide)
    (by decide)⟩

/-- C9 counterexample: a region record carrying all three expected string
fields but lacking the numeric WeightedCrimePercentile field does NOT crash
the extraction: the percentile is defaulted to 0 via unwrap_or(0.0) and the
record is kept, so the claim that a missing numeric field triggers an
unconditional unwrap crash is false of the code. -/
theorem missing_percentile_no_crash :
    buildAreas Unit (fun _ => none) (fun _ => some ())
      [[("GEOID", AttributeValue.S "48001"),
        ("County", AttributeValue.S "Anderson County"),
        ("Geometry", AttributeValue.S "POINT(0 0)")]]
      = some [⟨"48001", "Anderson County", 0, ()⟩]
    ∧ buildAreas Unit (fun _ => none) (fun _ => some ())
      [[("GEOID", AttributeValue.S "48001"),
        ("County", AttributeValue.S "Anderson County"),
        ("Geometry", AttributeValue.S "POINT(0 0)")]] ≠ none := by
  refine ⟨by decide, by decide⟩

/-- C9 (amended): a record lacking one of the string fields GEOID, County or
Geometry hits an unconditional unwrap and crashes the request task (modelled
as the whole extraction yielding none); a missing or unparseable
WeightedCrimePercentile does not crash: it is defaulted to 0.0. -/
theorem field_extraction_unwrap (J : Type) (parseNum : String → Option Rat)
    (w2g : String → Option J) (item : Item) (rest : List Item) :
    ((itemGet item "GEOID").bind AttributeValue.as_s = none →
      buildAreas J parseNum w2g (item :: rest) = none)
    ∧ ((itemGet item "County").bind AttributeValue.as_s = none →
      buildAreas J parseNum w2g (item :: rest) = none)
    ∧ ((itemGet item "Geometry").bind AttributeValue.as_s = none →
      buildAreas J parseNum w2g (item :: rest) = none)
    ∧ (((itemGet item "WeightedCrimePercentile").bind
        AttributeValue.as_n).bind parseNum = none →
      extractPercentile parseNum item = 0) := by
  refine ⟨?_, ?_, ?_, ?_⟩
  · intro h
    simp only [buildAreas, h]
  · intro h
    cases h1 : (itemGet item "GEOID").bind AttributeValue.as_s with
    | none => simp only [buildAreas, h1]
    | some geo_id => simp only [buildAreas, h1, h]
  · intro h
    cases h1 : (itemGet item "GEOID").bind AttributeValue.as_s with
    | none => simp only [buildAreas, h1]
    | some geo_id =>
      cases h2 : (itemGet item "County").bind AttributeValue.as_s with
      | none => simp only [buildAreas, h1, h2]
      | some county_name => simp only [buildAreas, h1, h2, h]
  · intro h
    simp only [extractPercentile, h, Option.getD_none]

theorem field_extraction_unwrap_witness :
    buildAreas Unit (fun _ => none) (fun _ => some ())
      [[("County", AttributeValue.S "Travis County")]] = none
    ∧ extractPercentile (fun _ => none) [] = 0 :=
  ⟨(field_extraction_unwrap Unit (fun _ => none) (fun _ => some ())
      [("County", AttributeValue.S "Travis County")] []).1 (by decide),
   (field_extraction_unwrap Unit (fun _ => none) (fun _ => some ())
      [] []).2.2.2 (by decide)⟩

/-- C5: the handler never returns a 200 response with an empty areas list;
and whenever the happy path reaches an assembled area list that is empty
after geometry filtering, the request fails with NOT_FOUND instead. -/
theorem no_empty_areas (W I G GJ J : Type) :
    (∀ (gres : Except String (List GeocodeResultEntry))
      (nmres : Except String (String → Option (List String)))
      (store : String → List StoreResponse)
      (pn : String → Option Rat) (pw : String → Option W) (wi : W → Option I)
      (tg : I → Option G) (gf : G → GJ) (tv : GJ → Option J)
      (resp : GeocodeResponse J),
      geocode W I G GJ J gres nmres store pn pw wi tg gf tv =
        some (Except.ok resp) → resp.areas ≠ [])
    ∧ (∀ (first : GeocodeResultEntry) (rest : List GeocodeResultEntry)
      (nmMap : String → Option (List String))
      (store : String → List StoreResponse)
      (pn : String → Option Rat) (pw : String → Option W) (wi : W → Option I)
      (tg : I → Option G) (gf : G → GJ) (tv : GJ → Option J)
      (tc : String) (items : List Item),
      findTargetCounty first.address_components = some tc →
      query_dynamo store (buildCountySet nmMap tc) = Except.ok items →
      buildAreas J pn (wkt_to_geojson W I G GJ J pw wi tg gf tv) items =
        some [] →
      geocode W I G GJ J (Except.ok (first :: rest)) (Except.ok nmMap) store
        pn pw wi tg gf tv = some (Except.error StatusCode.NOT_FOUND)) := by
  constructor
  · intro gres nmres store pn pw wi tg gf tv resp h
    simp only [geocode] at h
    split at h
    · simp at h
    · split at h
      · simp at h
      · split at h
        · simp at h
        · split at h
          · simp at h
          · split at h
            · simp at h
            · split at h
              · cases h
              · split at h
                · simp at h
                · rename_i hni
                  simp only [Option.some.injEq, Except.ok.injEq] at h
                  subst h
                  simpa using hni
  · intro first rest nmMap store pn pw wi tg gf tv tc items h1 h2 h3
    simp [geocode, h1, h2, h3]

theorem no_empty_areas_witness :
    geocode Unit Unit Unit Unit Unit
      (Except.ok [⟨⟨3, 4⟩,
        [⟨"Travis County", [PlaceType.administrativeAreaLevel2]⟩]⟩])
      (Except.ok (fun _ => none)) (fun _ => [StoreResponse.page (some []) none])
      (fun _ => none) (fun _ => none) (fun _ => none) (fun _ => none)
      (fun _ => ()) (fun _ => none)
      = some (Except.error StatusCode.NOT_FOUND) :=
  (no_empty_areas Unit Unit Unit Unit Unit).2
    ⟨⟨3, 4⟩, [⟨"Travis County", [PlaceType.administrativeAreaLevel2]⟩]⟩ []
    (fun _ => none) (fun _ => [StoreResponse.page (some []) none])
    (fun _ => none) (fun _ => none) (fun _ => none) (fun _ => none)
    (fun _ => ()) (fun _ => none) "Travis" [] (by decide) (by decide)
    (by decide)

/-- C7: `wkt_to_geojson` is a total function into Option: a failed parse of
the well-known-text input yields none; a parse producing no geometry item
yields none; a failed conversion to the geo geometry (e.g. an unsupported
variant) yields none; and a failed serialization of the resulting GeoJSON
value yields none. No failure path raises or propagates an error. -/
theorem wkt_to_geojson_absorbs (W I G GJ J : Type)
    (parseWkt : String → Option W) (wktItem : W → Option I)
    (tryIntoGeo : I → Option G) (geoJsonFrom : G → GJ)
    (toValue : GJ → Option J) (s : String) :
    (parseWkt s = none →
      wkt_to_geojson W I G GJ J parseWkt wktItem tryIntoGeo geoJsonFrom
        toValue s = none)
    ∧ (∀ w, parseWkt s = some w → wktItem w = none →
      wkt_to_geojson W I G GJ J parseWkt wktItem tryIntoGeo geoJsonFrom
        toValue s = none)
    ∧ (∀ w i, parseWkt s = some w → wktItem w = some i → tryIntoGeo i = none →
      wkt_to_geojson W I G GJ J parseWkt wktItem tryIntoGeo geoJsonFrom
        toValue s = none)
    ∧ (∀ w i g, parseWkt s = some w → wktItem w = some i →
      tryIntoGeo i = some g → toValue (geoJsonFrom g) = none →
      wkt_to_geojson W I G GJ J parseWkt wktItem tryIntoGeo geoJsonFrom
        toValue s = none) := by
  refine ⟨?_, ?_, ?_, ?_⟩
  · intro h
    simp only [wkt_to_geojson, h]
  · intro w h1 h2
    simp only [wkt_to_geojson, h1, h2]
  · intro w i h1 h2 h3
    simp only [wkt_to_geojson, h1, h2, h3]
  · intro w i g h1 h2 h3 h4
    simp only [wkt_to_geojson, h1, h2, h3, h4]

theorem wkt_to_geojson_absorbs_witness :
    wkt_to_geojson String String String String String
      (fun t => if t = "BAD" then none else some t)
      (fun w => if w = "NOITEM" then none else some w)
      (fun i => if i = "NOGEO" then none else some i)
      (fun g => g) (fun _ => none) "BAD" = none
    ∧ wkt_to_geojson String String String String String
      (fun t => if t = "BAD" then none else some t)
      (fun w => if w = "NOITEM" then none else some w)
      (fun i => if i = "NOGEO" then none else some i)
      (fun g => g) (fun _ => none) "NOITEM" = none
    ∧ wkt_to_geojson String String String String String
      (fun t => if t = "BAD" then none else some t)
      (fun w => if w = "NOITEM" then none else some w)
      (fun i => if i = "NOGEO" then none else some i)
      (fun g => g) (fun _ => none) "NOGEO" = none
    ∧ wkt_to_geojson String String String String String
      (fun t => if t = "BAD" then none else some t)
      (fun w => if w = "NOITEM" then none else some w)
      (fun i => if i = "NOGEO" then none else some i)
      (fun g => g) (fun _ => none) "POINT(0 0)" = none :=
  ⟨(wkt_to_geojson_absorbs String String String String String
      (fun t => if t = "BAD" then none else some t)
      (fun w => if w = "NOITEM" then none else some w)
      (fun i => if i = "NOGEO" then none else some i)
      (fun g => g) (fun _ => none) "BAD").1 (by decide),
   (wkt_to_geojson_absorbs String String String String String
      (fun t => if t = "BAD" then none else some t)
      (fun w => if w = "NOITEM" then none else some w)
      (fun i => if i = "NOGEO" then none else some i)
      (fun g => g) (fun _ => none) "NOITEM").2.1 "NOITEM" (by decide)
      (by decide),
   (wkt_to_geojson_absorbs String String String String String
      (fun t => if t = "BAD" then none else some t)
      (fun w => if w = "NOITEM" then none else some w)
      (fun i => if i = "NOGEO" then none else some i)
      (fun g => g) (fun _ => none) "NOGEO").2.2.1 "NOGEO" "NOGEO" (by decide)
      (by decide) (by decide),
   (wkt_to_geojson_absorbs String String String String String
      (fun t => if t = "BAD" then none else some t)
      (fun w => if w = "NOITEM" then none else some w)
      (fun i => if i = "NOGEO" then none else some i)
      (fun g => g) (fun _ => none) "POINT(0 0)").2.2.2 "POINT(0 0)"
      "POINT(0 0)" "POINT(0 0)" (by decide) (by decide) (by decide)
      (by decide)⟩

/-- C8: when the geocoding provider call succeeds with zero results, the
handler fails with NOT_FOUND, and the outcome is the same for every
neighbor-map load result and every store behaviour: neither collaborator can
influence (and in the source neither is invoked on) this path. -/
theorem zero_results_not_found (W I G GJ J : Type)
    (nmres nmres2 : Except String (String → Option (List String)))
    (store store2 : String → List StoreResponse)
    (pn pn2 : String → Option Rat) (pw pw2 : String → Option W)
    (wi wi2 : W → Option I) (tg tg2 : I → Option G) (gf gf2 : G → GJ)
    (tv tv2 : GJ → Option J) :
    geocode W I G GJ J (Except.ok []) nmres store pn pw wi tg gf tv
      = some (Except.error StatusCode.NOT_FOUND)
    ∧ geocode W I G GJ J (Except.ok []) nmres store pn pw wi tg gf tv
      = geocode W I G GJ J (Except.ok []) nmres2 store2 pn2 pw2 wi2 tg2
          gf2 tv2 :=
  ⟨rfl, rfl⟩
